import Mathlib

/-!
Verification of the ubirch COSE client (Go) against its specification.

The development shallowly embeds the parts of the program that the claims
are about:

* the canonical CBOR encoder (fxamacker/cbor with CanonicalEncOptions,
  RFC 7049 section 3.9 rules) restricted to the value shapes the program
  encodes: integers, byte strings, text strings, arrays, maps and tags;
* the COSE signer (protected header, GetSigStructBytes, getCOSE, Sign);
* the request adapter (getHashFromHashRequest, getPayloadAndHash,
  getPayloadAndHashFromDataRequest, handleRequest status mapping) with
  executable models of Go hex.DecodeString and base64.StdEncoding;
* the SKID reconciler tick (loadSKIDs, setInterval);
* the database manager (transaction-context dispatch, StoreNewIdentity,
  retry-on-transient-error behaviour).

Bytes are modelled as natural numbers below 256 in a List Nat.  External
primitives that the repository only calls (SHA-256, ECDSA SignHash, JSON
parsing, X.509 parsing) are passed as explicit function parameters, so
the theorems quantify over them; everything the repository itself
computes is defined executably from the source.
-/

namespace UbirchCose

/-- A byte sequence; each entry is a byte value below 256. -/
abbrev ByteL := List Nat

/-! ## Canonical CBOR encoding (fxamacker/cbor, CanonicalEncOptions)

The head of a CBOR data item: major type and argument, with the
minimal-length integer encoding required by canonical CBOR
(RFC 7049 section 3.9). -/

def cborHead (major n : Nat) : ByteL :=
  if n < 24 then [32 * major + n]
  else if n < 256 then [32 * major + 24, n]
  else if n < 65536 then [32 * major + 25, n / 256, n % 256]
  else if n < 4294967296 then
    [32 * major + 26, n / 16777216 % 256, n / 65536 % 256, n / 256 % 256, n % 256]
  else
    [32 * major + 27,
     n / 72057594037927936 % 256, n / 281474976710656 % 256,
     n / 1099511627776 % 256, n / 4294967296 % 256,
     n / 16777216 % 256, n / 65536 % 256, n / 256 % 256, n % 256]

/-- UTF-8 encoding of one character (Go strings are UTF-8 byte
sequences; CBOR text strings carry those bytes). -/
def charBytes (c : Char) : ByteL :=
  let n := c.toNat
  if n < 128 then [n]
  else if n < 2048 then [192 + n / 64, 128 + n % 64]
  else if n < 65536 then [224 + n / 4096, 128 + n / 64 % 64, 128 + n % 64]
  else [240 + n / 262144, 128 + n / 4096 % 64, 128 + n / 64 % 64, 128 + n % 64]

/-- UTF-8 bytes of a string. -/
def strBytes (s : String) : ByteL :=
  (s.data.map charBytes).flatten

/-- The CBOR values the program encodes: integers (Go int8 and uint8
keys and values), byte strings, text strings, arrays (toarray structs),
string- or int-keyed maps, and tags. -/
inductive CBOR where
  | int (i : Int)
  | bytes (bs : ByteL)
  | text (s : String)
  | arr (items : List CBOR)
  | map (pairs : List (CBOR × CBOR))
  | tag (n : Nat) (v : CBOR)
deriving Repr

/-- Bytewise lexicographic comparison of encoded keys. -/
def lexLE : ByteL → ByteL → Bool
  | [], _ => true
  | _ :: _, [] => false
  | a :: as, b :: bs =>
    if a < b then true else if b < a then false else lexLE as bs

/-- Canonical CBOR map-key order (RFC 7049 section 3.9): shorter encoded
key first, then bytewise lexicographic. -/
def canonicalKeyLE (a b : ByteL) : Bool :=
  if a.length = b.length then lexLE a b else decide (a.length < b.length)

def insertPair (p : ByteL × ByteL) :
    List (ByteL × ByteL) → List (ByteL × ByteL)
  | [] => [p]
  | q :: qs => if canonicalKeyLE p.1 q.1 then p :: q :: qs else q :: insertPair p qs

/-- Insertion sort of encoded (key, value) pairs by canonical key order;
this is the deterministic map-key ordering CanonicalEncOptions applies. -/
def sortPairsCanonical : List (ByteL × ByteL) → List (ByteL × ByteL)
  | [] => []
  | p :: ps => insertPair p (sortPairsCanonical ps)

def joinPairs : List (ByteL × ByteL) → ByteL
  | [] => []
  | p :: ps => p.1 ++ p.2 ++ joinPairs ps

mutual

/-- Canonical CBOR encoding of a value (encMode.Marshal with
CanonicalEncOptions): minimal-length heads, definite-length containers,
deterministic map-key ordering. -/
def encodeCBOR : CBOR → ByteL
  | .int i => if 0 ≤ i then cborHead 0 i.toNat else cborHead 1 (-(i + 1)).toNat
  | .bytes bs => cborHead 2 bs.length ++ bs
  | .text s => cborHead 3 (strBytes s).length ++ strBytes s
  | .arr items => cborHead 4 items.length ++ encodeCBORList items
  | .map pairs =>
    cborHead 5 pairs.length ++ joinPairs (sortPairsCanonical (encodeCBORPairs pairs))
  | .tag n v => cborHead 6 n ++ encodeCBOR v

def encodeCBORList : List CBOR → ByteL
  | [] => []
  | v :: vs => encodeCBOR v ++ encodeCBORList vs

def encodeCBORPairs : List (CBOR × CBOR) → List (ByteL × ByteL)
  | [] => []
  | (k, v) :: ps => (encodeCBOR k, encodeCBOR v) :: encodeCBORPairs ps

end

/-! ## COSE signer (NewCoseSigner, getCOSE, GetSigStructBytes) -/

/-- NewCoseSigner: protectedHeaderAlgES256CBOR is the canonical CBOR
encoding of the Go map `map[uint8]int8.COSE_Alg_Label: COSE_ES256_ID`,
i.e. of the one-entry map sending 1 to -7. -/
def protectedHeaderAlgES256CBOR : ByteL :=
  encodeCBOR (.map [(.int 1, .int (-7))])

example : protectedHeaderAlgES256CBOR = [0xA1, 0x01, 0x26] := by decide

/-- getCOSE: the tagged COSE_Sign1 object.  The COSE_Sign1 struct is a
toarray struct (protected, unprotected, payload, signature); the
unprotected header is the map sending COSE_Kid_Label = 4 to the kid
bytes; the whole array is wrapped in cbor.Tag with number
COSE_Sign1_Tag = 18 and canonically encoded. -/
def getCOSE (kid payload signatureBytes : ByteL) : ByteL :=
  encodeCBOR (.tag 18 (.arr
    [ .bytes protectedHeaderAlgES256CBOR,
      .map [(.int 4, .bytes kid)],
      .bytes payload,
      .bytes signatureBytes ]))

/-- GetSigStructBytes: canonical CBOR encoding of the Sig_structure
toarray struct (context, body protected header, external aad, payload)
with context COSE_Sign1_Context = "Signature1" and empty external aad. -/
def GetSigStructBytes (payload : ByteL) : ByteL :=
  encodeCBOR (.arr
    [ .text "Signature1",
      .bytes protectedHeaderAlgES256CBOR,
      .bytes ([] : ByteL),
      .bytes payload ])

/-- Modelled from the spec: the COSE output format stated in the spec,
Tag 18 over the array of the literal three protected-header bytes
A1 01 26, the unprotected map sending 4 to the kid, the payload byte
string and the signature byte string, in canonical CBOR. -/
def coseSpecBytes (kid payload signature : ByteL) : ByteL :=
  encodeCBOR (.tag 18 (.arr
    [ .bytes [0xA1, 0x01, 0x26],
      .map [(.int 4, .bytes kid)],
      .bytes payload,
      .bytes signature ]))

/-- Modelled from the spec: the Sig_structure encoding stated in the
spec, the canonical CBOR encoding of the four-element array of the
context text "Signature1", the literal protected-header byte string
A1 01 26, the empty byte string, and the payload byte string. -/
def sigStructSpecBytes (p : ByteL) : ByteL :=
  encodeCBOR (.arr
    [ .text "Signature1",
      .bytes [0xA1, 0x01, 0x26],
      .bytes ([] : ByteL),
      .bytes p ])

example :
    getCOSE [1, 2, 3, 4, 5, 6, 7, 8] [9] [7, 7] =
      [0xD2, 0x84, 0x43, 0xA1, 0x01, 0x26, 0xA1, 0x04, 0x48,
       1, 2, 3, 4, 5, 6, 7, 8, 0x41, 9, 0x42, 7, 7] := by decide

example :
    GetSigStructBytes [9] =
      [0x84, 0x6A] ++ strBytes "Signature1" ++
        [0x43, 0xA1, 0x01, 0x26, 0x40, 0x41, 9] := by decide

/-! ## Basic entities -/

/-- uuid.UUID is an opaque 128-bit identifier; the program only compares
uuids for equality and formats them with its canonical string form, so
it is modelled by that string. -/
structure UUID where
  str : String
deriving DecidableEq, Repr

/-- The Identity record (uuid, private key, public key, auth token). -/
structure Identity where
  uid : UUID
  privateKey : ByteL
  publicKey : ByteL
  authToken : String
deriving DecidableEq, Repr

structure HTTPRequest where
  ID : UUID
  Hash : ByteL
  Payload : ByteL
deriving DecidableEq, Repr

structure HTTPResponse where
  StatusCode : Nat
  Header : List (String × String)
  Content : ByteL
deriving DecidableEq, Repr

/-- net/http StatusText for the codes the program uses. -/
def statusText : Nat → String
  | 200 => "OK"
  | 400 => "Bad Request"
  | 401 => "Unauthorized"
  | 404 => "Not Found"
  | 500 => "Internal Server Error"
  | _ => ""

/-- errorResponse: an empty message is replaced by the generic status
text; the body carries the message bytes. -/
def errorResponse (code : Nat) (message : String) : HTTPResponse :=
  let message := if message = "" then statusText code else message
  { StatusCode := code,
    Header := [("Content-Type", "text/plain; charset=utf-8")],
    Content := strBytes message }

/-! ## Go standard-library decoders used by the request adapter -/

/-- encoding/hex digit value: 0-9, a-f, A-F. -/
def hexDigitVal (b : Nat) : Option Nat :=
  if 48 ≤ b ∧ b ≤ 57 then some (b - 48)
  else if 97 ≤ b ∧ b ≤ 102 then some (b - 87)
  else if 65 ≤ b ∧ b ≤ 70 then some (b - 55)
  else none

/-- encoding/hex DecodeString: pairs of hex digits; odd length or a
non-digit fails. -/
def hexDecode : ByteL → Option ByteL
  | [] => some []
  | [_] => none
  | a :: b :: rest =>
    match hexDigitVal a, hexDigitVal b, hexDecode rest with
    | some hi, some lo, some rs => some ((16 * hi + lo) :: rs)
    | _, _, _ => none

/-- encoding/base64 standard-alphabet symbol value. -/
def b64Val (b : Nat) : Option Nat :=
  if 65 ≤ b ∧ b ≤ 90 then some (b - 65)
  else if 97 ≤ b ∧ b ≤ 122 then some (b - 71)
  else if 48 ≤ b ∧ b ≤ 57 then some (b + 4)
  else if b = 43 then some 62
  else if b = 47 then some 63
  else none

/-- base64 StdEncoding quad decoding: full quads of symbols, with a
final quad allowed to carry one or two padding characters (byte 61). -/
def base64DecodeQuads : ByteL → Option ByteL
  | [] => some []
  | c1 :: c2 :: 61 :: 61 :: rest =>
    if rest.isEmpty then
      match b64Val c1, b64Val c2 with
      | some v1, some v2 => some [4 * v1 + v2 / 16]
      | _, _ => none
    else none
  | c1 :: c2 :: c3 :: 61 :: rest =>
    if rest.isEmpty then
      match b64Val c1, b64Val c2, b64Val c3 with
      | some v1, some v2, some v3 =>
        some [4 * v1 + v2 / 16, 16 * (v2 % 16) + v3 / 4]
      | _, _, _ => none
    else none
  | c1 :: c2 :: c3 :: c4 :: rest =>
    match b64Val c1, b64Val c2, b64Val c3, b64Val c4, base64DecodeQuads rest with
    | some v1, some v2, some v3, some v4, some rs =>
      some ((4 * v1 + v2 / 16) :: (16 * (v2 % 16) + v3 / 4) :: (64 * (v3 % 4) + v4) :: rs)
    | _, _, _, _, _ => none
  | _ => none

/-- base64 StdEncoding DecodeString: newline and carriage-return bytes
are ignored, then the symbol stream is decoded quad by quad. -/
def base64Decode (data : ByteL) : Option ByteL :=
  base64DecodeQuads (data.filter fun b => b != 10 && b != 13)

/-! ## Request adapter -/

def BinType : String := "application/octet-stream"
def TextType : String := "text/plain"
def JSONType : String := "application/json"
def CBORType : String := "application/cbor"
def HexEncoding : String := "hex"
def HashLen : Nat := 32
def HashEndpoint : String := "/hash"

/-- The two request headers the adapter reads. -/
structure Headers where
  contentType : String
  contentTransferEncoding : String
deriving DecidableEq, Repr

/-- strings.ToLower on the ASCII header values the adapter compares
(an upper-case ASCII letter becomes its lower-case form; every other
character is unchanged). -/
def lowerChar (c : Char) : Char :=
  if 65 ≤ c.toNat ∧ c.toNat ≤ 90 then Char.ofNat (c.toNat + 32) else c

def toLowerStr (s : String) : String :=
  ⟨s.data.map lowerChar⟩

/-- ContentType helper: the Content-Type header value, lower-cased. -/
def ContentTypeOf (header : Headers) : String :=
  toLowerStr header.contentType

/-- ContentEncoding helper: the Content-Transfer-Encoding header value,
lower-cased. -/
def ContentEncodingOf (header : Headers) : String :=
  toLowerStr header.contentTransferEncoding

/-- strings.HasSuffix. -/
def strEndsWith (s suffix : String) : Bool :=
  suffix.data.isSuffixOf s.data

def isHashRequest (path : String) : Bool :=
  strEndsWith path HashEndpoint

/-- getHashFromHashRequest: text/plain bodies are hex-decoded when the
transfer encoding is hex and base64-decoded otherwise, then fall
through to the raw-digest case, which requires exactly HashLen bytes;
any other content type fails.  (The formatted Go error texts carry the
offending sizes; the model keeps the static part of each message.) -/
def getHashFromHashRequest (header : Headers) (data : ByteL) :
    Except String ByteL :=
  if ContentTypeOf header = TextType then
    match
      (if ContentEncodingOf header = HexEncoding then hexDecode data
       else base64Decode data) with
    | none =>
      if ContentEncodingOf header = HexEncoding then
        .error "decoding hex encoded hash failed"
      else
        .error "decoding base64 encoded hash failed"
    | some decoded =>
      if decoded.length = HashLen then .ok decoded
      else .error "invalid SHA256 hash size"
  else if ContentTypeOf header = BinType then
    if data.length = HashLen then .ok data
    else .error "invalid SHA256 hash size"
  else
    .error "invalid content-type for hash"

/-- GetCBORFromJSON: json.Unmarshal into a string-to-string map
(modelled by the jsonParse parameter, since the JSON parser is Go
standard library), then canonical CBOR encoding of that map. -/
def GetCBORFromJSON (jsonParse : ByteL → Option (List (String × String)))
    (data : ByteL) : Except String ByteL :=
  match jsonParse data with
  | none => .error "unable to parse JSON request body"
  | some m =>
    .ok (encodeCBOR (.map (m.map fun kv => (.text kv.1, .text kv.2))))

/-- getPayloadAndHashFromDataRequest: a JSON body is first converted to
canonical CBOR of its string-to-string map and falls through to the
CBOR case; there, the Sig_structure bytes are built over the (possibly
converted) data and hashed with SHA-256 (the sha256 parameter models
crypto/sha256), and the data itself is returned as the payload. -/
def getPayloadAndHashFromDataRequest (sha256 : ByteL → ByteL)
    (jsonParse : ByteL → Option (List (String × String)))
    (header : Headers) (data : ByteL) : Except String (ByteL × ByteL) :=
  if ContentTypeOf header = JSONType then
    match GetCBORFromJSON jsonParse data with
    | .error e => .error ("unable to CBOR encode JSON object: " ++ e)
    | .ok converted =>
      .ok (converted, sha256 (GetSigStructBytes converted))
  else if ContentTypeOf header = CBORType then
    .ok (data, sha256 (GetSigStructBytes data))
  else
    .error "invalid content-type for original data"

/-- getPayloadAndHash: a hash request returns the raw request body as
the payload together with the decoded digest; a data request is
delegated to getPayloadAndHashFromDataRequest. -/
def getPayloadAndHash (sha256 : ByteL → ByteL)
    (jsonParse : ByteL → Option (List (String × String)))
    (path : String) (header : Headers) (rBody : ByteL) :
    Except String (ByteL × ByteL) :=
  if isHashRequest path then
    match getHashFromHashRequest header rBody with
    | .error e => .error e
    | .ok hash => .ok (rBody, hash)
  else
    getPayloadAndHashFromDataRequest sha256 jsonParse header rBody

/-! ## COSE signer Sign -/

/-- The published uuid-to-SKID mapping (Go map, unique keys). -/
abbrev SkidStore := List (UUID × ByteL)

def lookupSkid : SkidStore → UUID → Option ByteL
  | [], _ => none
  | (u, k) :: rest, uid => if u = uid then some k else lookupSkid rest uid

/-- GetSKID: reads the published SKID mapping; a missing entry yields
the formatted error message. -/
def GetSKID (store : SkidStore) (uid : UUID) : Except String ByteL :=
  match lookupSkid store uid with
  | some skid => .ok skid
  | none =>
    .error ("SKID unknown for identity " ++ uid.str ++
      " (missing X.509 public key certificate)")

/-- createSignedCOSE: ECDSA-sign the hash (SignHash is the external
ubirch crypto library, modelled by the signHash parameter), then build
the tagged COSE bytes. -/
def createSignedCOSE (signHash : ByteL → ByteL → Except String ByteL)
    (hash privateKeyPEM kid payload : ByteL) : Except String ByteL :=
  match signHash privateKeyPEM hash with
  | .error e => .error e
  | .ok signature => .ok (getCOSE kid payload signature)

/-- CoseSigner.Sign: a failing SKID lookup yields a 400 response whose
body is the error message; a failing signing step yields a 500 response
with the generic status text; success yields 200 with the COSE bytes. -/
def Sign (skidStore : SkidStore)
    (signHash : ByteL → ByteL → Except String ByteL)
    (msg : HTTPRequest) (privateKeyPEM : ByteL) : HTTPResponse :=
  match GetSKID skidStore msg.ID with
  | .error e => errorResponse 400 e
  | .ok skid =>
    match createSignedCOSE signHash msg.Hash privateKeyPEM skid msg.Payload with
    | .error _ => errorResponse 500 ""
    | .ok cose => { StatusCode := 200, Header := [], Content := cose }

/-- The outcome of Protocol.GetIdentity as seen by handleRequest. -/
inductive IdentityLookup where
  | notExist
  | otherFailure (msg : String)
  | found (id : Identity)

/-- COSEService.handleRequest, reduced to the status code it writes:
unknown uuid 404, other lookup failure 500, auth-token mismatch 401,
payload or hash extraction failure 400, otherwise the Sign response
status. -/
def handleRequestStatus (sha256 : ByteL → ByteL)
    (jsonParse : ByteL → Option (List (String × String)))
    (skidStore : SkidStore)
    (signHash : ByteL → ByteL → Except String ByteL)
    (uid : UUID) (identityRes : IdentityLookup) (authHeaderVal : String)
    (path : String) (header : Headers) (rBody : ByteL) : Nat :=
  match identityRes with
  | .notExist => 404
  | .otherFailure _ => 500
  | .found identity =>
    if authHeaderVal ≠ identity.authToken then 401
    else
      match getPayloadAndHash sha256 jsonParse path header rBody with
      | .error _ => 400
      | .ok (payload, hash) =>
        (Sign skidStore signHash
          { ID := uid, Hash := hash, Payload := payload }
          identity.privateKey).StatusCode

/-! ## SKID reconciler (setInterval, loadSKIDs) -/

def SkidLen : Nat := 8

/-- setInterval: per-minute reload uses a one-minute interval, hourly
reload a one-hour interval; the value is in seconds. -/
def certLoadIntervalSeconds (reloadCertsEveryMinute : Bool) : Nat :=
  if reloadCertsEveryMinute then 60 else 3600

/-- setInterval: the failure threshold is 60 for the per-minute profile
and 3 for the hourly profile. -/
def maxCertLoadFailCount (reloadCertsEveryMinute : Bool) : Nat :=
  if reloadCertsEveryMinute then 60 else 3

/-- A trust-list certificate entry; only the key identifier and the DER
data influence the reconciler, and the DER data only through the
external resolution step, so the model keeps the kid. -/
structure Certificate where
  kid : ByteL
deriving DecidableEq, Repr

/-- The reconciler state: the consecutive-failure counter and the
published SKID mapping. -/
structure ReconcilerState where
  certLoadFailCounter : Nat
  skidStore : SkidStore
deriving DecidableEq, Repr

/-- Go map assignment on the temporary store: replace the entry for the
uuid if present, append otherwise. -/
def storeInsert : SkidStore → UUID → ByteL → SkidStore
  | [], uid, kid => [(uid, kid)]
  | (u, k) :: rest, uid, kid =>
    if u = uid then (u, kid) :: rest else (u, k) :: storeInsert rest uid kid

/-- The certificate loop of loadSKIDs: resolve maps a certificate to
the local uuid owning its public key (x509.ParseCertificate,
EncodePublicKey and GetUuidForPublicKey composed; all either external
or store lookups, so passed as a parameter); unresolvable entries and
entries whose kid is not exactly SkidLen bytes are skipped. -/
def buildSkidStore (resolve : Certificate → Option UUID) :
    List Certificate → SkidStore → SkidStore
  | [], acc => acc
  | cert :: rest, acc =>
    match resolve cert with
    | none => buildSkidStore resolve rest acc
    | some uid =>
      if cert.kid.length ≠ SkidLen then buildSkidStore resolve rest acc
      else buildSkidStore resolve rest (storeInsert acc uid cert.kid)

/-- One tick of loadSKIDs.  fetchResult is none when
RequestCertificateList failed (transport error or a trust-list
signature that did not verify).  On failure the counter increments and,
unless it has just reached the threshold, the tick returns early with
the published mapping untouched; at the threshold the tick falls
through with no certificates, so the rebuilt mapping is empty and
replaces the published one.  On success the counter resets and the
mapping rebuilt from the fetched certificates is published. -/
def loadSKIDs (maxFail : Nat) (resolve : Certificate → Option UUID)
    (fetchResult : Option (List Certificate)) (st : ReconcilerState) :
    ReconcilerState :=
  match fetchResult with
  | none =>
    let counter := st.certLoadFailCounter + 1
    if counter ≠ maxFail then
      { st with certLoadFailCounter := counter }
    else
      { certLoadFailCounter := counter,
        skidStore := buildSkidStore resolve [] [] }
  | some certs =>
    { certLoadFailCounter := 0,
      skidStore := buildSkidStore resolve certs [] }

/-! ## Database manager -/

/-- The errors the store layer distinguishes. errExists is the context
manager sentinel; pqUniqueViolation is the raw duplicate-key error the
postgres driver returns on a primary-key collision; notSqlTx is the
error returned when the transaction context is not a *sql.Tx; txDone
models using a concluded transaction. -/
inductive StoreErr where
  | errExists
  | pqUniqueViolation
  | notSqlTx
  | txDone
deriving DecidableEq, Repr

/-- The transaction-context argument: either a real *sql.Tx handle or a
value of some other dynamic type. -/
inductive TxCtx where
  | tx (handle : Nat)
  | notTx
deriving DecidableEq, Repr

/-- The store: committed rows, plus the row view of the single open
transaction (a copy of the committed rows extended by its own pending
writes; enough for read-committed with one writer). -/
structure DbState where
  committed : List Identity
  txView : Option (List Identity)
deriving DecidableEq, Repr

/-- DatabaseManager.StartTransaction (BeginTx). -/
def dmStartTransaction (st : DbState) : DbState × TxCtx :=
  ({ st with txView := some st.committed }, .tx 0)

/-- DatabaseManager.CloseTransaction: a non-*sql.Tx context is an error
before anything is committed or rolled back; otherwise commit installs
the transaction view and rollback discards it. -/
def dmCloseTransaction (st : DbState) (ctx : TxCtx) (commit : Bool) :
    DbState × Except StoreErr Unit :=
  match ctx with
  | .notTx => (st, .error .notSqlTx)
  | .tx _ =>
    match st.txView with
    | none => (st, .error .txDone)
    | some view =>
      if commit then ({ committed := view, txView := none }, .ok ())
      else ({ st with txView := none }, .ok ())

/-- DatabaseManager.StoreNewIdentity: a non-*sql.Tx context is an error
before any write; otherwise the INSERT succeeds unless the primary key
uid already exists, in which case the driver's duplicate-key error is
surfaced unchanged (the function performs no translation to the
ErrExists sentinel). -/
def dmStoreNewIdentity (st : DbState) (ctx : TxCtx) (id : Identity) :
    DbState × Except StoreErr Unit :=
  match ctx with
  | .notTx => (st, .error .notSqlTx)
  | .tx _ =>
    match st.txView with
    | none => (st, .error .txDone)
    | some view =>
      if view.any fun row => row.uid == id.uid then
        (st, .error .pqUniqueViolation)
      else
        ({ st with txView := some (view ++ [id]) }, .ok ())

/-- DatabaseManager.SetAuthToken: a non-*sql.Tx context is an error
before any write; otherwise the UPDATE rewrites the auth token of the
row with the given uid inside the transaction view. -/
def dmSetAuthToken (st : DbState) (ctx : TxCtx) (uid : UUID)
    (authToken : String) : DbState × Except StoreErr Unit :=
  match ctx with
  | .notTx => (st, .error .notSqlTx)
  | .tx _ =>
    match st.txView with
    | none => (st, .error .txDone)
    | some view =>
      ({ st with txView := some (view.map fun row =>
          if row.uid = uid then { row with authToken := authToken } else row) },
       .ok ())

/-- The duplicate-handling step of migrateIdentities: a store error
equal to ErrExists is logged and skipped, any other error aborts the
migration. -/
def migrateStoreStep (st : DbState) (ctx : TxCtx) (id : Identity) :
    DbState × Option StoreErr :=
  let r := dmStoreNewIdentity st ctx id
  match r.2 with
  | .ok _ => (r.1, none)
  | .error e => if e = .errExists then (r.1, none) else (r.1, some e)

/-! ## Transient-connection retry behaviour -/

/-- One scripted outcome of a database query attempt. -/
inductive QueryOutcome where
  | transientConnErr
  | noRows
  | otherErr (msg : String)
  | row
deriving DecidableEq, Repr

/-- isConnectionAvailable: true exactly on the transient
too-many-connections / configuration-limit-exceeded signals (after a
100 ms sleep). -/
def isConnectionAvailableOutcome : QueryOutcome → Bool
  | .transientConnErr => true
  | _ => false

/-- DatabaseManager.Exists over a script of per-attempt query outcomes:
a transient outcome makes the function call itself again on the rest of
the script; any other outcome is final.  none means the scripted
outcomes ran out while the code was still retrying. -/
def dmExists : List QueryOutcome → Option (Except String Bool)
  | [] => none
  | .transientConnErr :: rest => dmExists rest
  | .noRows :: _ => some (.ok false)
  | .otherErr e :: _ => some (.error e)
  | .row :: _ => some (.ok true)

/-- The number of query attempts dmExists makes on a script (retries
plus the final attempt). -/
def dmExistsAttempts : List QueryOutcome → Nat
  | [] => 0
  | .transientConnErr :: rest => dmExistsAttempts rest + 1
  | _ :: _ => 1

/-- Accumulated backoff sleep in milliseconds: isConnectionAvailable
sleeps 100 ms before each retry. -/
def dmExistsBackoffMs : List QueryOutcome → Nat
  | .transientConnErr :: rest => 100 + dmExistsBackoffMs rest
  | _ => 0

def maxDbConnAttempts : Nat := 5

/-- One scripted outcome of a BeginTx attempt. -/
inductive TxStartOutcome where
  | transientConnErr
  | otherErr (msg : String)
  | started (handle : Nat)
deriving DecidableEq, Repr

/-- Modelled from the spec: isConnectionNotAvailable is referenced by
Protocol.StartTransaction but its definition is not among the provided
sources; per the spec it recognizes the transient
too-many-connections / configuration-limit-exceeded signal. -/
def isConnectionNotAvailable : TxStartOutcome → Bool
  | .transientConnErr => true
  | _ => false

/-- The attempt loop of Protocol.StartTransaction: at attempt index i
with remaining budget r+1, a transient failure with budget left moves
on to the next attempt; otherwise the outcome of attempt i is returned
together with the number of attempts made. -/
def pstAux (att : Nat → TxStartOutcome) : Nat → Nat → TxStartOutcome × Nat
  | i, 0 => (att i, i + 1)
  | i, r + 1 =>
    let out := att i
    if isConnectionNotAvailable out then
      if r = 0 then (out, i + 1) else pstAux att (i + 1) r
    else (out, i + 1)

/-- Protocol.StartTransaction: up to maxDbConnAttempts BeginTx
attempts, retrying only on the transient signal. -/
def protocolStartTransaction (att : Nat → TxStartOutcome) :
    TxStartOutcome × Nat :=
  pstAux att 0 maxDbConnAttempts

/-! ## Theorems -/

theorem protectedHeader_bytes :
    protectedHeaderAlgES256CBOR = [0xA1, 0x01, 0x26] := by decide

/-- C1: for every 8-byte kid, payload and signature, getCOSE returns
exactly the canonical CBOR encoding of Tag 18 over the array of the
protected header, the unprotected map sending 4 to the kid, the
payload and the signature, with the protected header exactly the three
bytes A1 01 26; the byte-exact layout is spelled out as well. -/
theorem getCOSE_canonical (kid payload sig : ByteL) (hkid : kid.length = 8) :
    getCOSE kid payload sig = coseSpecBytes kid payload sig ∧
    protectedHeaderAlgES256CBOR = [0xA1, 0x01, 0x26] ∧
    getCOSE kid payload sig =
      [0xD2, 0x84, 0x43, 0xA1, 0x01, 0x26, 0xA1, 0x04, 0x48] ++ kid ++
        cborHead 2 payload.length ++ payload ++
        cborHead 2 sig.length ++ sig := by
  refine ⟨?_, protectedHeader_bytes, ?_⟩
  · unfold getCOSE coseSpecBytes
    rw [protectedHeader_bytes]
  · unfold getCOSE
    rw [protectedHeader_bytes]
    simp [encodeCBOR, encodeCBORList, encodeCBORPairs, sortPairsCanonical,
      insertPair, joinPairs, hkid]
    rfl

/-- C1 witness: the theorem applied at a concrete 8-byte kid. -/
theorem getCOSE_canonical_witness :
    ([1, 2, 3, 4, 5, 6, 7, 8] : ByteL).length = 8 ∧
    getCOSE [1, 2, 3, 4, 5, 6, 7, 8] [9] [7, 7] =
      coseSpecBytes [1, 2, 3, 4, 5, 6, 7, 8] [9] [7, 7] :=
  ⟨by decide, (getCOSE_canonical [1, 2, 3, 4, 5, 6, 7, 8] [9] [7, 7] (by decide)).1⟩

/-- C2: for every payload, GetSigStructBytes returns exactly the
canonical CBOR encoding of the four-element array of the context text
"Signature1", the protected-header byte string A1 01 26, the empty
byte string, and the payload byte string; the byte-exact layout is
spelled out as well. -/
theorem GetSigStructBytes_canonical (p : ByteL) :
    GetSigStructBytes p = sigStructSpecBytes p ∧
    GetSigStructBytes p =
      [0x84, 0x6A, 0x53, 0x69, 0x67, 0x6E, 0x61, 0x74, 0x75, 0x72, 0x65, 0x31,
       0x43, 0xA1, 0x01, 0x26, 0x40] ++ cborHead 2 p.length ++ p := by
  constructor
  · unfold GetSigStructBytes sigStructSpecBytes
    rw [protectedHeader_bytes]
  · unfold GetSigStructBytes
    rw [protectedHeader_bytes]
    simp [encodeCBOR, encodeCBORList]
    rfl

/-- C3: Sign returns 400 with the lookup error message as body when the
SKID lookup fails, 500 with the generic status text as body when the
lookup succeeds but signing fails, and 200 with the raw tagged COSE
bytes as body when both succeed. -/
theorem Sign_status_mapping (st : SkidStore)
    (signHash : ByteL → ByteL → Except String ByteL)
    (msg : HTTPRequest) (priv : ByteL) :
    (lookupSkid st msg.ID = none →
      Sign st signHash msg priv =
        { StatusCode := 400,
          Header := [("Content-Type", "text/plain; charset=utf-8")],
          Content := strBytes ("SKID unknown for identity " ++ msg.ID.str ++
            " (missing X.509 public key certificate)") }) ∧
    (∀ skid e, lookupSkid st msg.ID = some skid →
      signHash priv msg.Hash = .error e →
      Sign st signHash msg priv =
        { StatusCode := 500,
          Header := [("Content-Type", "text/plain; charset=utf-8")],
          Content := strBytes "Internal Server Error" }) ∧
    (∀ skid sig, lookupSkid st msg.ID = some skid →
      signHash priv msg.Hash = .ok sig →
      Sign st signHash msg priv =
        { StatusCode := 200, Header := [],
          Content := getCOSE skid msg.Payload sig }) := by
  refine ⟨fun h => ?_, fun skid e h hs => ?_, fun skid sig h hs => ?_⟩
  · unfold Sign GetSKID
    rw [h]
    unfold errorResponse
    have hne : ("SKID unknown for identity " ++ msg.ID.str ++
        " (missing X.509 public key certificate)") ≠ "" := by
      intro hc
      have h2 : ("SKID unknown for identity " ++ msg.ID.str ++
          " (missing X.509 public key certificate)").length = 0 := by
        rw [hc]; rfl
      rw [String.length_append, String.length_append] at h2
      have h3 : 0 < ("SKID unknown for identity ").length := by decide
      omega
    simp [hne]
  · unfold Sign GetSKID createSignedCOSE
    rw [h, hs]
    rfl
  · unfold Sign GetSKID createSignedCOSE
    rw [h, hs]

/-- The request used by the C3 witness. -/
def witnessMsg : HTTPRequest :=
  { ID := ⟨"u1"⟩, Hash := [0], Payload := [1] }

/-- The one-entry SKID store used by the C3 witness. -/
def witnessStore : SkidStore := [(⟨"u1"⟩, [1, 2, 3, 4, 5, 6, 7, 8])]

/-- C3 witness: the three branches at concrete inputs. -/
theorem Sign_status_mapping_witness :
    (lookupSkid [] witnessMsg.ID = none ∧
      Sign [] (fun _ _ => .ok [5]) witnessMsg [3] =
        { StatusCode := 400,
          Header := [("Content-Type", "text/plain; charset=utf-8")],
          Content := strBytes ("SKID unknown for identity " ++ "u1" ++
            " (missing X.509 public key certificate)") }) ∧
    (lookupSkid witnessStore witnessMsg.ID = some [1, 2, 3, 4, 5, 6, 7, 8] ∧
      Sign witnessStore (fun _ _ => .error "boom") witnessMsg [3] =
        { StatusCode := 500,
          Header := [("Content-Type", "text/plain; charset=utf-8")],
          Content := strBytes "Internal Server Error" }) ∧
    (Sign witnessStore (fun _ _ => .ok [5]) witnessMsg [3] =
      { StatusCode := 200, Header := [],
        Content := getCOSE [1, 2, 3, 4, 5, 6, 7, 8] [1] [5] }) :=
  ⟨⟨rfl, (Sign_status_mapping [] (fun _ _ => .ok [5]) witnessMsg [3]).1 rfl⟩,
   ⟨rfl, (Sign_status_mapping witnessStore
      (fun _ _ => .error "boom") witnessMsg [3]).2.1
      [1, 2, 3, 4, 5, 6, 7, 8] "boom" rfl rfl⟩,
   (Sign_status_mapping witnessStore
      (fun _ _ => .ok [5]) witnessMsg [3]).2.2
      [1, 2, 3, 4, 5, 6, 7, 8] [5] rfl rfl⟩

/-- C4: with the threshold of the chosen profile (60 per-minute, 3
hourly), a failing tick increments the fail counter and a successful
tick resets it to zero and publishes the rebuilt mapping; a failing
tick whose incremented counter is still strictly below the threshold
leaves the published mapping unchanged, and the failing tick at which
the counter reaches exactly the threshold publishes the empty map. -/
theorem loadSKIDs_failure_tolerance (b : Bool)
    (resolve : Certificate → Option UUID) (st : ReconcilerState)
    (certs : List Certificate) :
    maxCertLoadFailCount true = 60 ∧ maxCertLoadFailCount false = 3 ∧
    (loadSKIDs (maxCertLoadFailCount b) resolve none st).certLoadFailCounter =
      st.certLoadFailCounter + 1 ∧
    loadSKIDs (maxCertLoadFailCount b) resolve (some certs) st =
      { certLoadFailCounter := 0,
        skidStore := buildSkidStore resolve certs [] } ∧
    (st.certLoadFailCounter + 1 < maxCertLoadFailCount b →
      (loadSKIDs (maxCertLoadFailCount b) resolve none st).skidStore =
        st.skidStore) ∧
    (st.certLoadFailCounter + 1 = maxCertLoadFailCount b →
      (loadSKIDs (maxCertLoadFailCount b) resolve none st).skidStore = []) := by
  refine ⟨rfl, rfl, ?_, rfl, fun hlt => ?_, fun heq => ?_⟩
  · unfold loadSKIDs
    dsimp only
    split <;> rfl
  · unfold loadSKIDs
    have hne : st.certLoadFailCounter + 1 ≠ maxCertLoadFailCount b := by omega
    dsimp only
    simp [hne]
  · unfold loadSKIDs
    dsimp only
    simp [heq, buildSkidStore]

/-- C4 witness: per-minute profile, counter 2 with a nonempty published
mapping survives a failing tick; counter 59 reaching 60 clears it; a
successful tick resets the counter. -/
theorem loadSKIDs_failure_tolerance_witness :
    (2 + 1 < maxCertLoadFailCount true ∧
      (loadSKIDs (maxCertLoadFailCount true) (fun _ => none) none
        ⟨2, [(⟨"u1"⟩, [1, 2, 3, 4, 5, 6, 7, 8])]⟩).skidStore =
        [(⟨"u1"⟩, [1, 2, 3, 4, 5, 6, 7, 8])]) ∧
    (59 + 1 = maxCertLoadFailCount true ∧
      (loadSKIDs (maxCertLoadFailCount true) (fun _ => none) none
        ⟨59, [(⟨"u1"⟩, [1, 2, 3, 4, 5, 6, 7, 8])]⟩).skidStore = []) ∧
    (loadSKIDs (maxCertLoadFailCount true) (fun _ => none) (some [])
        ⟨2, [(⟨"u1"⟩, [1, 2, 3, 4, 5, 6, 7, 8])]⟩).certLoadFailCounter = 0 :=
  ⟨⟨by decide,
    (loadSKIDs_failure_tolerance true (fun _ => none)
      ⟨2, [(⟨"u1"⟩, [1, 2, 3, 4, 5, 6, 7, 8])]⟩ []).2.2.2.2.1 (by decide)⟩,
   ⟨by decide,
    (loadSKIDs_failure_tolerance true (fun _ => none)
      ⟨59, [(⟨"u1"⟩, [1, 2, 3, 4, 5, 6, 7, 8])]⟩ []).2.2.2.2.2 (by decide)⟩,
   by
    rw [(loadSKIDs_failure_tolerance true (fun _ => none)
      ⟨2, [(⟨"u1"⟩, [1, 2, 3, 4, 5, 6, 7, 8])]⟩ []).2.2.2.1]⟩

/-- C5 counterexample: a successful hash request with content type
text/plain and hex transfer encoding, whose body is sixty-four ASCII
zero digits.  The digest that is signed is the 32 zero bytes, but the
pair returned by getPayloadAndHash carries the raw 64-byte body in the
payload position, so the bytes placed in the COSE payload slot are not
the digest bytes. -/
theorem hashRequest_payload_counterexample :
    getPayloadAndHash (fun _ => []) (fun _ => none) "/abc/cbor/hash"
        ⟨"text/plain", "hex"⟩ (List.replicate 64 48) =
      .ok (List.replicate 64 48, List.replicate 32 0) ∧
    List.replicate 64 48 ≠ (List.replicate 32 0 : ByteL) :=
  ⟨rfl, by decide⟩

/-- C5 amended: for every successful hash-endpoint request the payload
position of the returned pair (the bytes later placed in the COSE
payload slot) holds the raw request body; that equals the decoded
digest exactly for content type application/octet-stream, while for
text/plain it is the still-encoded text. -/
theorem hashRequest_payload_is_raw_body (sha256 : ByteL → ByteL)
    (jsonParse : ByteL → Option (List (String × String)))
    (path : String) (header : Headers) (rBody pl h : ByteL)
    (hpath : isHashRequest path = true)
    (hok : getPayloadAndHash sha256 jsonParse path header rBody = .ok (pl, h)) :
    pl = rBody ∧ (ContentTypeOf header = BinType → h = rBody) := by
  unfold getPayloadAndHash at hok
  rw [if_pos hpath] at hok
  cases hh : getHashFromHashRequest header rBody with
  | error e => rw [hh] at hok; exact absurd hok (by simp)
  | ok hv =>
    rw [hh] at hok
    have hpl : pl = rBody := by
      cases hok
      rfl
    have hhv : h = hv := by
      cases hok
      rfl
    refine ⟨hpl, fun hct => ?_⟩
    unfold getHashFromHashRequest at hh
    rw [hct] at hh
    have hne : BinType ≠ TextType := by decide
    rw [if_neg hne, if_pos rfl] at hh
    by_cases hlen : rBody.length = HashLen
    · rw [if_pos hlen] at hh
      cases hh
      rw [hhv]
    · rw [if_neg hlen] at hh
      exact absurd hh (by simp)

/-- C5 amended witness: a raw octet-stream digest request at a
concrete 32-byte body. -/
theorem hashRequest_payload_is_raw_body_witness :
    (List.replicate 32 7 : ByteL) = List.replicate 32 7 ∧
    (ContentTypeOf ⟨"application/octet-stream", ""⟩ = BinType →
      (List.replicate 32 7 : ByteL) = List.replicate 32 7) :=
  hashRequest_payload_is_raw_body (fun _ => []) (fun _ => none) "/x/cbor/hash"
    ⟨"application/octet-stream", ""⟩ (List.replicate 32 7) (List.replicate 32 7)
    (List.replicate 32 7) rfl rfl

/-- C6: for a data-endpoint request, a JSON body parsed into the
string-to-string map m is converted to the canonical CBOR encoding of
m, and the returned pair carries those CBOR bytes in the payload
position together with the SHA-256 of the Sig_structure over them; a
CBOR body is used as-is, hashed the same way. -/
theorem dataRequest_payload_and_hash (sha256 : ByteL → ByteL)
    (jsonParse : ByteL → Option (List (String × String)))
    (header : Headers) (data : ByteL) (m : List (String × String)) :
    (ContentTypeOf header = JSONType → jsonParse data = some m →
      GetCBORFromJSON jsonParse data =
        .ok (encodeCBOR (.map (m.map fun kv => (.text kv.1, .text kv.2)))) ∧
      getPayloadAndHashFromDataRequest sha256 jsonParse header data =
        .ok (encodeCBOR (.map (m.map fun kv => (.text kv.1, .text kv.2))),
          sha256 (GetSigStructBytes
            (encodeCBOR (.map (m.map fun kv => (.text kv.1, .text kv.2))))))) ∧
    (ContentTypeOf header = CBORType →
      getPayloadAndHashFromDataRequest sha256 jsonParse header data =
        .ok (data, sha256 (GetSigStructBytes data))) := by
  constructor
  · intro hct hjp
    have hcb : GetCBORFromJSON jsonParse data =
        .ok (encodeCBOR (.map (m.map fun kv => (.text kv.1, .text kv.2)))) := by
      unfold GetCBORFromJSON
      rw [hjp]
    refine ⟨hcb, ?_⟩
    unfold getPayloadAndHashFromDataRequest
    rw [hct, if_pos rfl, hcb]
  · intro hct
    unfold getPayloadAndHashFromDataRequest
    rw [hct]
    have hne : CBORType ≠ JSONType := by decide
    rw [if_neg hne, if_pos rfl]

/-- C6 witness: a concrete one-entry JSON object and a concrete CBOR
body. -/
theorem dataRequest_payload_and_hash_witness :
    (GetCBORFromJSON (fun _ => some [("hello", "world")]) [123] =
      .ok (encodeCBOR (.map [(.text "hello", .text "world")])) ∧
     getPayloadAndHashFromDataRequest (fun _ => List.replicate 32 0)
        (fun _ => some [("hello", "world")]) ⟨"application/json", ""⟩ [123] =
      .ok (encodeCBOR (.map [(.text "hello", .text "world")]),
        List.replicate 32 0)) ∧
    getPayloadAndHashFromDataRequest (fun _ => List.replicate 32 0)
        (fun _ => some [("hello", "world")]) ⟨"application/cbor", ""⟩ [0xA0] =
      .ok ([0xA0], List.replicate 32 0) :=
  ⟨(dataRequest_payload_and_hash (fun _ => List.replicate 32 0)
      (fun _ => some [("hello", "world")]) ⟨"application/json", ""⟩ [123]
      [("hello", "world")]).1 rfl rfl,
   (dataRequest_payload_and_hash (fun _ => List.replicate 32 0)
      (fun _ => some [("hello", "world")]) ⟨"application/cbor", ""⟩ [0xA0]
      [("hello", "world")]).2 rfl⟩

/-- C7: the hash-endpoint dispatch.  application/octet-stream takes the
body as the raw digest; text/plain hex-decodes the body when the
transfer encoding is hex and base64-decodes it otherwise; a digest of
any length other than 32, an undecodable body, or any other content
type is an error; and a payload-extraction error makes the handler
answer 400. -/
theorem getHashFromHashRequest_dispatch (header : Headers) (data : ByteL) :
    (ContentTypeOf header = BinType →
      (data.length = HashLen → getHashFromHashRequest header data = .ok data) ∧
      (data.length ≠ HashLen →
        getHashFromHashRequest header data = .error "invalid SHA256 hash size")) ∧
    (ContentTypeOf header = TextType → ContentEncodingOf header = HexEncoding →
      (hexDecode data = none →
        getHashFromHashRequest header data =
          .error "decoding hex encoded hash failed") ∧
      (∀ d, hexDecode data = some d → d.length = HashLen →
        getHashFromHashRequest header data = .ok d) ∧
      (∀ d, hexDecode data = some d → d.length ≠ HashLen →
        getHashFromHashRequest header data =
          .error "invalid SHA256 hash size")) ∧
    (ContentTypeOf header = TextType → ContentEncodingOf header ≠ HexEncoding →
      (base64Decode data = none →
        getHashFromHashRequest header data =
          .error "decoding base64 encoded hash failed") ∧
      (∀ d, base64Decode data = some d → d.length = HashLen →
        getHashFromHashRequest header data = .ok d) ∧
      (∀ d, base64Decode data = some d → d.length ≠ HashLen →
        getHashFromHashRequest header data =
          .error "invalid SHA256 hash size")) ∧
    (ContentTypeOf header ≠ TextType → ContentTypeOf header ≠ BinType →
      getHashFromHashRequest header data =
        .error "invalid content-type for hash") ∧
    (∀ (sha256 : ByteL → ByteL)
        (jsonParse : ByteL → Option (List (String × String)))
        (skidStore : SkidStore)
        (signHash : ByteL → ByteL → Except String ByteL)
        (uid : UUID) (identity : Identity) (path : String) (e : String),
      getPayloadAndHash sha256 jsonParse path header data = .error e →
      handleRequestStatus sha256 jsonParse skidStore signHash uid
        (.found identity) identity.authToken path header data = 400) := by
  refine ⟨fun hct => ?_, fun hct henc => ?_, fun hct henc => ?_,
    fun hct1 hct2 => ?_, fun sha jp ss sh uid identity path e hpl => ?_⟩
  · have hne : ContentTypeOf header ≠ TextType := by
      rw [hct]; decide
    unfold getHashFromHashRequest
    rw [if_neg hne, if_pos hct]
    constructor
    · intro hlen; rw [if_pos hlen]
    · intro hlen; rw [if_neg hlen]
  · unfold getHashFromHashRequest
    rw [if_pos hct]
    refine ⟨fun hd => ?_, fun d hd hlen => ?_, fun d hd hlen => ?_⟩
    · rw [if_pos henc, hd, if_pos henc]
    · rw [if_pos henc, hd]
      dsimp only
      rw [if_pos hlen]
    · rw [if_pos henc, hd]
      dsimp only
      rw [if_neg hlen]
  · unfold getHashFromHashRequest
    rw [if_pos hct]
    refine ⟨fun hd => ?_, fun d hd hlen => ?_, fun d hd hlen => ?_⟩
    · rw [if_neg henc, hd, if_neg henc]
    · rw [if_neg henc, hd]
      dsimp only
      rw [if_pos hlen]
    · rw [if_neg henc, hd]
      dsimp only
      rw [if_neg hlen]
  · unfold getHashFromHashRequest
    rw [if_neg hct1, if_neg hct2]
  · unfold handleRequestStatus
    dsimp only
    rw [if_neg (fun h => h rfl), hpl]

/-- C7 witness: concrete requests through each accepted shape, one
rejected content type, and the 400 mapping at a failing request. -/
theorem getHashFromHashRequest_dispatch_witness :
    (getHashFromHashRequest ⟨"application/octet-stream", ""⟩
      (List.replicate 32 7) = .ok (List.replicate 32 7)) ∧
    (getHashFromHashRequest ⟨"text/plain", "hex"⟩
      (List.replicate 64 48) = .ok (List.replicate 32 0)) ∧
    (getHashFromHashRequest ⟨"text/plain", ""⟩
      (List.replicate 43 65 ++ [61]) = .ok (List.replicate 32 0)) ∧
    (getHashFromHashRequest ⟨"application/xml", ""⟩ [1] =
      .error "invalid content-type for hash") ∧
    (handleRequestStatus (fun _ => []) (fun _ => none) [] (fun _ _ => .ok [])
      ⟨"u"⟩ (.found ⟨⟨"u"⟩, [1], [2], "tok"⟩) "tok" "/x/cbor/hash"
      ⟨"application/xml", ""⟩ [1] = 400) :=
  ⟨((getHashFromHashRequest_dispatch ⟨"application/octet-stream", ""⟩
      (List.replicate 32 7)).1 rfl).1 (by decide),
   ((getHashFromHashRequest_dispatch ⟨"text/plain", "hex"⟩
      (List.replicate 64 48)).2.1 rfl rfl).2.1 (List.replicate 32 0) rfl
      (by decide),
   ((getHashFromHashRequest_dispatch ⟨"text/plain", ""⟩
      (List.replicate 43 65 ++ [61])).2.2.1 rfl (by decide)).2.1
      (List.replicate 32 0) rfl (by decide),
   (getHashFromHashRequest_dispatch ⟨"application/xml", ""⟩ [1]).2.2.2.1
      (by decide) (by decide),
   (getHashFromHashRequest_dispatch ⟨"application/xml", ""⟩ [1]).2.2.2.2
      (fun _ => []) (fun _ => none) [] (fun _ _ => .ok []) ⟨"u"⟩
      ⟨⟨"u"⟩, [1], [2], "tok"⟩ "/x/cbor/hash" "invalid content-type for hash"
      rfl⟩

/-- The identity used to exercise the duplicate-insert path. -/
def dupIdentity : Identity :=
  ⟨⟨"11111111-1111-1111-1111-111111111111"⟩, [1], [2], "token"⟩

/-- C8 (evidence for the code bug): inserting an identity that is
already committed fails with the driver's raw duplicate-key error, not
with the ErrExists sentinel, and leaves the store unchanged (the row
stays bit-identical); consequently the duplicate-skip branch of
migrateIdentities, which compares against ErrExists, does not fire and
the migration aborts.  The last conjunct records that the exercised
state is exactly the one reached by opening a transaction on a store
whose committed table holds the identity. -/
theorem storeNewIdentity_duplicate_surfaces_raw_pq_error :
    dmStoreNewIdentity ⟨[dupIdentity], some [dupIdentity]⟩ (.tx 0) dupIdentity =
      (⟨[dupIdentity], some [dupIdentity]⟩, .error .pqUniqueViolation) ∧
    StoreErr.pqUniqueViolation ≠ StoreErr.errExists ∧
    migrateStoreStep ⟨[dupIdentity], some [dupIdentity]⟩ (.tx 0) dupIdentity =
      (⟨[dupIdentity], some [dupIdentity]⟩, some .pqUniqueViolation) ∧
    dmStartTransaction ⟨[dupIdentity], none⟩ =
      (⟨[dupIdentity], some [dupIdentity]⟩, .tx 0) :=
  ⟨rfl, by decide, rfl, rfl⟩

/-- C9 counterexample: a script of six transient too-many-connections
errors followed by a found row.  DatabaseManager.Exists keeps retrying
through all six transient errors (seven attempts, 600 ms of backoff)
and returns success, so the operation is neither limited to five
retries nor does it surface an error when the sixth transient failure
occurs. -/
theorem dmExists_sixth_retry_counterexample :
    dmExists (List.replicate 6 .transientConnErr ++ [.row]) = some (.ok true) ∧
    dmExistsAttempts (List.replicate 6 .transientConnErr ++ [.row]) = 7 ∧
    dmExistsBackoffMs (List.replicate 6 .transientConnErr ++ [.row]) = 600 :=
  ⟨rfl, rfl, rfl⟩

/-- The attempt counter of the Protocol.StartTransaction loop never
exceeds the remaining budget. -/
theorem pstAux_attempts_le (att : Nat → TxStartOutcome) :
    ∀ r, 1 ≤ r → ∀ i, (pstAux att i r).2 ≤ i + r := by
  intro r
  induction r with
  | zero => intro h; omega
  | succ r ih =>
    intro _ i
    unfold pstAux
    dsimp only
    by_cases hc : isConnectionNotAvailable (att i) = true
    · rw [if_pos hc]
      by_cases hr : r = 0
      · rw [if_pos hr]
        omega
      · rw [if_neg hr]
        have := ih (by omega) (i + 1)
        omega
    · rw [if_neg hc]
      omega

/-- C9 amended: any non-transient outcome is surfaced by
DatabaseManager.Exists on the first attempt without retry; a transient
too-many-connections or configuration-limit-exceeded outcome causes a
retry with 100 ms of backoff, with no bound on the number of retries at
this layer; the five-attempt bound exists only in the
Protocol.StartTransaction wrapper, which gives up with the transient
error after exactly maxDbConnAttempts = 5 attempts. -/
theorem store_retry_semantics (e : String) (outs : List QueryOutcome)
    (att : Nat → TxStartOutcome) :
    dmExists (.otherErr e :: outs) = some (.error e) ∧
    dmExistsAttempts (.otherErr e :: outs) = 1 ∧
    dmExists (.transientConnErr :: outs) = dmExists outs ∧
    dmExistsAttempts (.transientConnErr :: outs) = dmExistsAttempts outs + 1 ∧
    dmExistsBackoffMs (.transientConnErr :: outs) =
      100 + dmExistsBackoffMs outs ∧
    (protocolStartTransaction att).2 ≤ maxDbConnAttempts ∧
    ((∀ i, i < maxDbConnAttempts → att i = .transientConnErr) →
      protocolStartTransaction att = (.transientConnErr, maxDbConnAttempts)) := by
  refine ⟨rfl, rfl, rfl, rfl, rfl, ?_, fun h => ?_⟩
  · exact pstAux_attempts_le att maxDbConnAttempts (by decide) 0
  · unfold protocolStartTransaction maxDbConnAttempts
    unfold pstAux
    rw [h 0 (by decide)]
    unfold pstAux
    rw [h 1 (by decide)]
    unfold pstAux
    rw [h 2 (by decide)]
    unfold pstAux
    rw [h 3 (by decide)]
    unfold pstAux
    rw [h 4 (by decide)]
    rfl

/-- C9 amended witness: a concrete non-transient error, a concrete
transient prefix, and the all-transient BeginTx attempt sequence. -/
theorem store_retry_semantics_witness :
    dmExists [.otherErr "oops"] = some (.error "oops") ∧
    dmExists [.transientConnErr, .noRows] = dmExists [.noRows] ∧
    (protocolStartTransaction fun _ => .transientConnErr).2 ≤
      maxDbConnAttempts ∧
    protocolStartTransaction (fun _ => .transientConnErr) =
      (.transientConnErr, maxDbConnAttempts) :=
  ⟨(store_retry_semantics "oops" [] (fun _ => .transientConnErr)).1,
   (store_retry_semantics "oops" [.noRows] (fun _ => .transientConnErr)).2.2.1,
   (store_retry_semantics "oops" [] (fun _ => .transientConnErr)).2.2.2.2.2.1,
   (store_retry_semantics "oops" [] (fun _ => .transientConnErr)).2.2.2.2.2.2
     (fun _ _ => rfl)⟩

/-- C10: every database-manager operation taking a transaction context
rejects a value that is not a *sql.Tx with an error, leaving the store
untouched: no write, no commit, no rollback. -/
theorem nonSqlTx_rejected (st : DbState) (commit : Bool) (id : Identity)
    (uid : UUID) (tok : String) :
    dmCloseTransaction st .notTx commit = (st, .error .notSqlTx) ∧
    dmStoreNewIdentity st .notTx id = (st, .error .notSqlTx) ∧
    dmSetAuthToken st .notTx uid tok = (st, .error .notSqlTx) :=
  ⟨rfl, rfl, rfl⟩

end UbirchCose
